import Mathlib

/-!
# Verification of the Signal Recovery DSP7265 PyMoDAQ plugins

A shallow embedding of the two plugin modules of
`pymodaq_plugins_signal_recovery`:

* `daq_move_plugins/daq_move_Lockin_DSP7265.py` (the actuator plugin), and
* `daq_viewer_plugins/plugins_0D/daq_0Dviewer_Lockin_DSP7265.py` (the viewer
  plugin).

Python floats are embedded as `ℚ`; Python strings as `String`; a Python
`dict` keyed by strings as an insertion-ordered association list; raised
exceptions as `Except String`.  Functions of the instrument driver
(`pymeasure`'s `DSP7265`), of the host framework (`pymodaq`'s
`DAQ_Move_base` helpers) and of the parameter-tree widget (`pyqtgraph`'s
`setLimits`) are not part of the repository's sources; where a property
depends on them they are modelled from the specification and marked
`Modelled from the spec:` in their doc comment.
-/

set_option maxRecDepth 10000

namespace DSP7265Plugin

/-! ## Python `%.2e` float formatting

`build_dict_from_float_list` labels every float with Python's
`f"{tc:.2e} {unit}"`.  The formatting is reproduced here over `ℚ`:
scientific notation, mantissa rounded to two decimals, exponent signed and
zero-padded to at least two digits. -/

/-- `10 ^ e` over `ℚ` for an integer exponent. -/
def tenPowZ : ℤ → ℚ
  | Int.ofNat n => (10 : ℚ) ^ n
  | Int.negSucc n => ((10 : ℚ) ^ (n + 1))⁻¹

/-- Floor of a rational as an integer (floor division of numerator by
denominator). -/
def ratFloor (q : ℚ) : ℤ := Int.fdiv q.num (q.den : ℤ)

/-- `⌊log₁₀ n⌋` of a positive natural, by fuelled structural recursion (the
fuel of 100 covers every magnitude this file evaluates). -/
def log10Fuel : ℕ → ℕ → ℕ
  | 0, _ => 0
  | fuel + 1, n => if n < 10 then 0 else 1 + log10Fuel fuel (n / 10)

/-- `⌊log₁₀ q⌋` for a positive rational: the digit-count estimate from the
numerator and denominator, corrected by comparison with powers of ten. -/
def floorLog10 (q : ℚ) : ℤ :=
  let e0 : ℤ := (log10Fuel 100 q.num.natAbs : ℤ) - (log10Fuel 100 q.den : ℤ)
  if tenPowZ (e0 + 1) ≤ q then e0 + 1
  else if tenPowZ e0 ≤ q then e0
  else e0 - 1

/-- A natural number printed with at least two digits (zero-padded). -/
def padTwo (n : ℕ) : String :=
  if n < 10 then "0" ++ toString n else toString n

/-- The exponent field of Python's `%.2e`: sign always shown, at least two
digits. -/
def expPart (e : ℤ) : String :=
  if e < 0 then "e-" ++ padTwo e.natAbs else "e+" ++ padTwo e.natAbs

/-- Python's `f"{q:.2e}"` for a positive rational. -/
def fmt2ePos (q : ℚ) : String :=
  let e := floorLog10 q
  let m100 := ratFloor (q / tenPowZ e * 100 + 1 / 2)
  let em : ℤ × ℤ := if m100 ≥ 1000 then (e + 1, 100) else (e, m100)
  let m := em.2.toNat
  toString (m / 100) ++ "." ++ padTwo (m % 100) ++ expPart em.1

/-- Python's `f"{q:.2e}"`. -/
def fmt2e (q : ℚ) : String :=
  if q = 0 then "0.00e+00"
  else if q < 0 then "-" ++ fmt2ePos (-q)
  else fmt2ePos q

/-! ## Python string-keyed `dict`

Insertion-ordered association list: inserting an existing key overwrites its
value in place, a new key is appended. -/

/-- One `d[k] = v` assignment on a Python dict. -/
def dictInsert (d : List (String × ℚ)) (k : String) (v : ℚ) :
    List (String × ℚ) :=
  if d.any (fun p => p.1 = k) then
    d.map (fun p => if p.1 = k then (p.1, v) else p)
  else d ++ [(k, v)]

/-- `list(d.keys())`. -/
def dictKeys (d : List (String × ℚ)) : List String := d.map Prod.fst

/-- `d[k]` read access: `KeyError` when the key is absent. -/
def dictGet (d : List (String × ℚ)) (k : String) : Except String ℚ :=
  match d.find? (fun p => p.1 = k) with
  | some p => Except.ok p.2
  | none => Except.error ("KeyError: " ++ k)

/-- `build_dict_from_float_list` of `daq_move_Lockin_DSP7265.py`:
`d[f"{tc:.2e} {unit}"] = tc` for each float of the list, in order. -/
def build_dict_from_float_list (time_constants : List ℚ) (unit : String) :
    List (String × ℚ) :=
  time_constants.foldl (fun d tc => dictInsert d (fmt2e tc ++ " " ++ unit) tc) []

/-! ## DSP7265 driver constants

Modelled from the spec: the instrument driver (`pymeasure`'s `DSP7265`
class) is not part of this repository's sources; these are its class
constants, referenced by the plugin: the input-mode enumeration
("voltage-mode vs. one of two current-mode measurement regimes"), the fixed
full-scale sensitivity table, the per-mode sensitivity multiplier table and
the filter time-constant table. -/

/-- Modelled from the spec: `DSP7265.IMODES`, the input-mode enumeration —
one voltage mode and two current modes. -/
def DSP7265_IMODES : List String :=
  ["voltage mode", "current mode", "high bandwidth current mode"]

/-- Modelled from the spec: `DSP7265.SENSITIVITIES`, the fixed full-scale
sensitivity table of the driver. -/
def DSP7265_SENSITIVITIES : List ℚ :=
  [0, 2 / 10 ^ 9, 5 / 10 ^ 9, 10 / 10 ^ 9, 20 / 10 ^ 9, 50 / 10 ^ 9,
   100 / 10 ^ 9, 200 / 10 ^ 9, 500 / 10 ^ 9, 1 / 10 ^ 6, 2 / 10 ^ 6,
   5 / 10 ^ 6, 10 / 10 ^ 6, 20 / 10 ^ 6, 50 / 10 ^ 6, 100 / 10 ^ 6,
   200 / 10 ^ 6, 500 / 10 ^ 6, 1 / 10 ^ 3, 2 / 10 ^ 3, 5 / 10 ^ 3,
   10 / 10 ^ 3, 20 / 10 ^ 3, 50 / 10 ^ 3, 100 / 10 ^ 3, 200 / 10 ^ 3,
   500 / 10 ^ 3, 1]

/-- Modelled from the spec: `DSP7265.SEN_MULTIPLIER`, the mode-specific
sensitivity multiplier table (unit and multiplier depend on the input
mode). -/
def DSP7265_SEN_MULTIPLIER : List ℚ := [1, 1 / 10 ^ 6, 1 / 10 ^ 8]

/-- Modelled from the spec: `DSP7265.TIME_CONSTANTS`, the enumeration of
fixed real-valued filter time constants in seconds. -/
def DSP7265_TIME_CONSTANTS : List ℚ :=
  [10 / 10 ^ 6, 20 / 10 ^ 6, 40 / 10 ^ 6, 80 / 10 ^ 6, 160 / 10 ^ 6,
   320 / 10 ^ 6, 640 / 10 ^ 6, 5 / 10 ^ 3, 10 / 10 ^ 3, 20 / 10 ^ 3,
   50 / 10 ^ 3, 100 / 10 ^ 3, 200 / 10 ^ 3, 500 / 10 ^ 3, 1, 2, 5, 10, 20,
   50, 100, 200, 500, 10 ^ 3, 2 * 10 ^ 3, 5 * 10 ^ 3, 10 ^ 4, 2 * 10 ^ 4,
   5 * 10 ^ 4]

/-! ## Module-level tables of the actuator plugin -/

/-- `FET = {"Bipolar": 0, "FET": 1}`. -/
def FET : List (String × ℚ) := [("Bipolar", 0), ("FET", 1)]

/-- `SHIELD = {"Grounded": 0, "Floating": 1}`. -/
def SHIELD : List (String × ℚ) := [("Grounded", 0), ("Floating", 1)]

/-- `COUPLING = {"AC": 0, "DC": 1}`. -/
def COUPLING : List (String × ℚ) := [("AC", 0), ("DC", 1)]

/-- `TIME_CONSTANTS = build_dict_from_float_list(DSP7265.TIME_CONSTANTS, "s")`. -/
def TIME_CONSTANTS : List (String × ℚ) :=
  build_dict_from_float_list DSP7265_TIME_CONSTANTS "s"

/-- The sensitivity dict the plugin builds for input mode `i`:
`build_dict_from_float_list([s * SEN_MULTIPLIER[i] for s in SENSITIVITIES], unit)`. -/
def senDict (i : ℕ) (unit : String) : List (String × ℚ) :=
  build_dict_from_float_list
    (DSP7265_SENSITIVITIES.map (fun s => s * DSP7265_SEN_MULTIPLIER.getD i 0))
    unit

/-! ## The actuator plugin's settings bridge

`DAQ_Move_Lockin_DSP7265.commit_settings` dispatches on the changed
parameter's name and writes device attributes.  A Python value held in a
parameter or a device attribute is a string or a number. -/

/-- A Python value as the plugin stores one: a string label or a float. -/
inductive PyVal where
  | str : String → PyVal
  | num : ℚ → PyVal
deriving DecidableEq, Repr

/-- The driver attributes the actuator plugin writes
(`self.controller.<attr> = ...`). -/
structure Controller where
  imode : PyVal
  reference : PyVal
  fet : ℚ
  shield : ℚ
  coupling : ℚ
  time_constant : ℚ
  sensitivity : ℚ
  voltage : PyVal
  gain : PyVal
  frequency : ℚ
deriving DecidableEq, Repr

/-- The slice of the actuator plugin's parameter tree that
`commit_settings` reads or writes: the selected input-mode label, the
selected sensitivity label and the sensitivity parameter's limits list. -/
structure MoveSettings where
  imodeVal : String
  sensitivityVal : String
  sensitivityLimits : List String
deriving DecidableEq, Repr

/-- The actuator plugin's configuration state: the live device handle's
attributes and the settings tree. -/
structure MoveState where
  controller : Controller
  settings : MoveSettings
deriving DecidableEq, Repr

/-- A changed parameter handed to `commit_settings`: its name and value. -/
structure PyParam where
  name : String
  value : PyVal
deriving DecidableEq, Repr

/-- `DAQ_Move_Lockin_DSP7265.commit_settings`.  Dispatches on
`param.name()`; dict lookups raise `KeyError` (`Except.error`) on a missing
key; the final `else` branch is `pass`.  `setLimits` on the sensitivity
parameter is modelled from the spec (the parameter-tree widget is not under
`src/`): it replaces the limits list and leaves the selected value in
place. -/
def commit_settings (param : PyParam) (st : MoveState) :
    Except String MoveState :=
  if param.name = "imode" then
    let st := { st with controller := { st.controller with imode := param.value } }
    if param.value = PyVal.str (DSP7265_IMODES.getD 0 "") then
      Except.ok { st with settings :=
        { st.settings with sensitivityLimits := dictKeys (senDict 0 "V") } }
    else if param.value = PyVal.str (DSP7265_IMODES.getD 1 "") then
      Except.ok { st with settings :=
        { st.settings with sensitivityLimits := dictKeys (senDict 1 "A") } }
    else if param.value = PyVal.str (DSP7265_IMODES.getD 2 "") then
      Except.ok { st with settings :=
        { st.settings with sensitivityLimits := dictKeys (senDict 2 "A") } }
    else Except.ok st
  else if param.name = "reference" then
    Except.ok { st with controller := { st.controller with reference := param.value } }
  else if param.name = "fet" then
    match param.value with
    | PyVal.str s =>
      match dictGet FET s with
      | Except.ok v =>
        Except.ok { st with controller := { st.controller with fet := v } }
      | Except.error e => Except.error e
    | PyVal.num _ => Except.error "KeyError: non-string key"
  else if param.name = "shield" then
    match param.value with
    | PyVal.str s =>
      match dictGet SHIELD s with
      | Except.ok v =>
        Except.ok { st with controller := { st.controller with shield := v } }
      | Except.error e => Except.error e
    | PyVal.num _ => Except.error "KeyError: non-string key"
  else if param.name = "coupling" then
    match param.value with
    | PyVal.str s =>
      match dictGet COUPLING s with
      | Except.ok v =>
        Except.ok { st with controller := { st.controller with coupling := v } }
      | Except.error e => Except.error e
    | PyVal.num _ => Except.error "KeyError: non-string key"
  else if param.name = "time_constant" then
    match param.value with
    | PyVal.str s =>
      match dictGet TIME_CONSTANTS s with
      | Except.ok v =>
        Except.ok { st with controller := { st.controller with time_constant := v } }
      | Except.error e => Except.error e
    | PyVal.num _ => Except.error "KeyError: non-string key"
  else if param.name = "sensitivity" then
    let step : MoveState → ℕ → String → Except String MoveState :=
      fun s i unit =>
        if s.settings.imodeVal = DSP7265_IMODES.getD i "" then
          match dictGet (senDict i unit) s.settings.sensitivityVal with
          | Except.ok v =>
            Except.ok { s with controller := { s.controller with sensitivity := v } }
          | Except.error e => Except.error e
        else Except.ok s
    match step st 0 "V" with
    | Except.error e => Except.error e
    | Except.ok st =>
      match step st 1 "A" with
      | Except.error e => Except.error e
      | Except.ok st => step st 2 "A"
  else if param.name = "voltage" then
    Except.ok { st with controller := { st.controller with voltage := param.value } }
  else if param.name = "gain" then
    Except.ok { st with controller := { st.controller with gain := param.value } }
  else
    Except.ok st

/-! ## The actuator's motion operations

`move_abs`, `move_rel`, `move_home` and `get_actuator_value` of
`DAQ_Move_Lockin_DSP7265`.  `check_bound` and the scaling helpers live in
the host framework's `DAQ_Move_base` (not under `src/`) and are modelled
from the spec. -/

/-- The soft-bounds settings of the host framework's parameter tree. -/
structure BoundsSettings where
  is_bounds : Bool
  min_bound : ℚ
  max_bound : ℚ
deriving DecidableEq, Repr

/-- The scaling settings of the host framework's parameter tree. -/
structure ScalingSettings where
  use_scaling : Bool
  scaling : ℚ
  offset : ℚ
deriving DecidableEq, Repr

/-- Modelled from the spec: `DAQ_Move_base.check_bound` (framework code not
under `src/`) — clamp a target to the configured soft bounds when they are
enabled. -/
def check_bound (b : BoundsSettings) (pos : ℚ) : ℚ :=
  if b.is_bounds then
    if pos > b.max_bound then b.max_bound
    else if pos < b.min_bound then b.min_bound
    else pos
  else pos

/-- Modelled from the spec: `DAQ_Move_base.set_position_with_scaling`
(framework code not under `src/`) — the scaling pipeline applied on write,
host-visible position to device-native value. -/
def set_position_with_scaling (sc : ScalingSettings) (pos : ℚ) : ℚ :=
  if sc.use_scaling then pos / sc.scaling + sc.offset else pos

/-- Modelled from the spec: `DAQ_Move_base.get_position_with_scaling`
(framework code not under `src/`) — the scaling pipeline applied on read,
device-native value back to host-visible position. -/
def get_position_with_scaling (sc : ScalingSettings) (pos : ℚ) : ℚ :=
  if sc.use_scaling then (pos - sc.offset) * sc.scaling else pos

/-- Modelled from the spec: `DAQ_Move_base.set_position_relative_with_scaling`
(framework code not under `src/`) — the scaling transform for a relative
step (no offset). -/
def set_position_relative_with_scaling (sc : ScalingSettings) (pos : ℚ) : ℚ :=
  if sc.use_scaling then pos / sc.scaling else pos

/-- The per-axis state the motion operations touch: the framework's bounds
and scaling settings, the device's frequency attribute
(`self.controller.frequency`) and the plugin's target/current frequency
pair. -/
structure AxisState where
  bounds : BoundsSettings
  scaling : ScalingSettings
  deviceFrequency : ℚ
  target_frequency : ℚ
  current_frequency : ℚ
deriving DecidableEq, Repr

/-- `DAQ_Move_Lockin_DSP7265.get_actuator_value`: read the device frequency
and convert it through the scaling pipeline. -/
def get_actuator_value (st : AxisState) : ℚ :=
  get_position_with_scaling st.scaling st.deviceFrequency

/-- `DAQ_Move_Lockin_DSP7265.move_abs`: clamp, scale, write the device
frequency attribute, then set `target_frequency` and assign
`current_frequency = target_frequency`. -/
def move_abs (st : AxisState) (f : ℚ) : AxisState :=
  let f1 := check_bound st.bounds f
  let f2 := set_position_with_scaling st.scaling f1
  { st with deviceFrequency := f2, target_frequency := f2,
            current_frequency := f2 }

/-- `DAQ_Move_Lockin_DSP7265.move_rel`: bound the step against the current
frequency, record the target, compute (and discard) the relative-scaled
step, then delegate to `move_abs` on the target. -/
def move_rel (st : AxisState) (f : ℚ) : AxisState :=
  let f1 := check_bound st.bounds (st.current_frequency + f)
              - st.current_frequency
  let st1 := { st with target_frequency := f1 + st.current_frequency }
  let _unused := set_position_relative_with_scaling st1.scaling f1
  move_abs st1 st1.target_frequency

/-- `DAQ_Move_Lockin_DSP7265.move_home`: `move_abs(DataActuator(1e3))`. -/
def move_home (st : AxisState) : AxisState := move_abs st 1000

/-! ## Initialization of the actuator and the viewer

`ini_stage` / `ini_detector` open a connection (Master) or borrow one
(Slave), query the identification string and return the framework's status
record; any exception raised inside the `try` block is caught and turned
into a status with the logged message and `initialized = False`.  The
transport adapter, the driver constructor and the identification query are
opaque services: each is a field of the environment that may fail.  The
model counts adapter constructions (transport opens) and driver
constructions so that "no transport-open call is made" is statable. -/

/-- The framework's status record (`edict(info=..., controller=...,
initialized=...)`). -/
structure IniStatus (β : Type) where
  info : String
  controller : Option β
  initialized : Bool

/-- The environment of `DAQ_Move_Lockin_DSP7265.ini_stage`: the relevant
settings-tree values and the opaque external services. -/
structure MoveIniEnv (α β : Type) where
  ismultiaxes : Bool
  multi_status : String
  adapterKey : String
  address : String
  constructAdapter : String → String → Except String α
  constructDSP : α → Except String β
  queryId : β → Except String String
  lineInfo : String

/-- The message of the exception `ini_stage` raises for a Slave axis with
no externally supplied controller (two adjacent string literals in the
source, concatenated without a space); the spec's `ConfigurationError`. -/
def moveSlaveErrMsg : String :=
  "No controller has been defined externallywhile this axe is a slave one"

/-- The `try`-block of `ini_stage`: the status it builds, or the raised
message; with the number of adapter constructions (transport opens) and
driver constructions performed. -/
def ini_stage_body {α β : Type} (env : MoveIniEnv α β) (controller : Option β) :
    Except String (IniStatus β) × ℕ × ℕ :=
  if env.ismultiaxes = true ∧ env.multi_status = "Slave" then
    match controller with
    | none => (Except.error moveSlaveErrMsg, 0, 0)
    | some c =>
      match env.queryId c with
      | Except.error e => (Except.error e, 0, 0)
      | Except.ok idStr => (Except.ok ⟨idStr, some c, true⟩, 0, 0)
  else
    match env.constructAdapter env.adapterKey env.address with
    | Except.error e => (Except.error e, 1, 0)
    | Except.ok a =>
      match env.constructDSP a with
      | Except.error e => (Except.error e, 1, 1)
      | Except.ok c =>
        match env.queryId c with
        | Except.error e => (Except.error e, 1, 1)
        | Except.ok idStr => (Except.ok ⟨idStr, some c, true⟩, 1, 1)

/-- `DAQ_Move_Lockin_DSP7265.ini_stage`: the `try` body with its
`except Exception` boundary — a raised message becomes a status record
with `info = getLineInfo() + str(e)`, no controller and
`initialized = False`. -/
def ini_stage {α β : Type} (env : MoveIniEnv α β) (controller : Option β) :
    IniStatus β × ℕ × ℕ :=
  match ini_stage_body env controller with
  | (Except.ok s, a, d) => (s, a, d)
  | (Except.error e, a, d) =>
    ({ info := env.lineInfo ++ e, controller := none, initialized := false }, a, d)

/-- The environment of `DAQ_0DViewer_Lockin_DSP7265.ini_detector`. -/
structure ViewerIniEnv (α β : Type) where
  controller_status : String
  adapterKey : String
  address : String
  constructAdapter : String → String → Except String α
  constructDSP : α → Except String β
  queryId : β → Except String String
  lineInfo : String

/-- The message of the exception `ini_detector` raises for a Slave channel
with no externally supplied controller; the spec's `ConfigurationError`. -/
def viewerSlaveErrMsg : String :=
  "No controller has been defined externally while this axe is a slave one"

/-- The `try`-block of `ini_detector`.  In the success path the source
stores the *argument* in `status.controller` (`self.status.controller =
controller`), so a Master initialization reports `none` there. -/
def ini_detector_body {α β : Type} (env : ViewerIniEnv α β)
    (controller : Option β) : Except String (IniStatus β) × ℕ × ℕ :=
  if env.controller_status = "Slave" then
    match controller with
    | none => (Except.error viewerSlaveErrMsg, 0, 0)
    | some c =>
      match env.queryId c with
      | Except.error e => (Except.error e, 0, 0)
      | Except.ok idStr => (Except.ok ⟨idStr, controller, true⟩, 0, 0)
  else
    match env.constructAdapter env.adapterKey env.address with
    | Except.error e => (Except.error e, 1, 0)
    | Except.ok a =>
      match env.constructDSP a with
      | Except.error e => (Except.error e, 1, 1)
      | Except.ok c =>
        match env.queryId c with
        | Except.error e => (Except.error e, 1, 1)
        | Except.ok idStr => (Except.ok ⟨idStr, controller, true⟩, 1, 1)

/-- `DAQ_0DViewer_Lockin_DSP7265.ini_detector`: the `try` body with its
`except Exception` boundary. -/
def ini_detector {α β : Type} (env : ViewerIniEnv α β) (controller : Option β) :
    IniStatus β × ℕ × ℕ :=
  match ini_detector_body env controller with
  | (Except.ok s, a, d) => (s, a, d)
  | (Except.error e, a, d) =>
    ({ info := env.lineInfo ++ e, controller := none, initialized := false }, a, d)

/-! ## The viewer's channel-selection group

`ChannelGroup.addNew` of `daq_0Dviewer_Lockin_DSP7265.py`: children are
named `f'channel{newindex:02.0f}'`; the new index is computed from
`int(par.name()[len(name_prefix) + 1:])` over the existing children —
`len('channel') + 1 = 8`, so the slice starts one character past
the prefix. -/

/-- The name of the child added for index `i`:
`f'channel{i:02.0f}'` (zero-padded to at least two digits). -/
def channelName (i : ℕ) : String := "channel" ++ padTwo i

/-- The decimal value of an ASCII digit character. -/
def digitVal (c : Char) : Option ℕ :=
  if 48 ≤ c.toNat ∧ c.toNat ≤ 57 then some (c.toNat - 48) else none

/-- Digit-string accumulation for `int`. -/
def natOfChars : List Char → ℕ → Option ℕ
  | [], acc => some acc
  | c :: cs, acc =>
    match digitVal c with
    | some d => natOfChars cs (acc * 10 + d)
    | none => none

/-- Python's `int` on the digit strings occurring here: `none` models the
`ValueError` raised on an empty or non-numeric string. -/
def pyInt : List Char → Option ℤ
  | [] => none
  | c :: cs => (natOfChars (c :: cs) 0).map Int.ofNat

/-- `int(par.name()[len(name_prefix) + 1:])`: the characters of the child's
name from position 8 on, parsed as an integer. -/
def parsedChildIndex (childName : String) : Option ℤ :=
  pyInt (childName.data.drop 8)

/-- The `child_indexes` list comprehension over the group's children. -/
def childIndexes (names : List String) : Option (List ℤ) :=
  names.mapM parsedChildIndex

/-- The new index `ChannelGroup.addNew` computes: `0` when there are no
children, `max(child_indexes) + 1` otherwise. -/
def addNewIndex (names : List String) : Option ℤ :=
  match childIndexes names with
  | none => none
  | some [] => some 0
  | some (x :: xs) => some (xs.foldl max x + 1)

/-- `ChannelGroup.addNew`: append the child named for the computed index. -/
def addNew (names : List String) : Option (List String) :=
  (addNewIndex names).map (fun i => names ++ [channelName i.toNat])

/-- `n` successive `addNew` calls. -/
def addNewIter : ℕ → Option (List String) → Option (List String)
  | 0, s => s
  | Nat.succ n, s => addNewIter n (s.bind addNew)

/-- The channel group list after eleven successive adds starting from an
empty group: `channel00` … `channel10`. -/
def elevenChannels : List String := (List.range 11).map channelName

/-! ## The viewer's acquisition loop

`DAQ_0DViewer_Lockin_DSP7265.grab_data`: one labeled `DataFromPlugins`
bundle per channel group, one single-element array per selected channel
name, read from the device attribute of that name
(`getattr(self.controller, label)`). -/

/-- The host framework's labeled 0-D data bundle, as `grab_data` fills it. -/
structure DataFromPlugins where
  name : String
  data : List (List ℚ)
  labels : List String
  dim : String
deriving DecidableEq, Repr

/-- One channel-selection child: its parameter name and the selected subset
of the channel enumeration. -/
structure ChannelChild where
  childName : String
  selected : List String
deriving DecidableEq, Repr

/-- `DAQ_0DViewer_Lockin_DSP7265.grab_data` up to the signal emission: the
list of bundles built by the loop.  `ctrl` is the device handle as an
attribute reader (`getattr(self.controller, label)`). -/
def grab_data (children : List ChannelChild) (ctrl : String → ℚ) :
    List DataFromPlugins :=
  children.foldl
    (fun data child =>
      data ++ [{ name := child.childName,
                 data := child.selected.map (fun label => [ctrl label]),
                 labels := child.selected,
                 dim := "Data0D" }])
    []

/-! ## Concrete fixtures for the witness theorems -/

/-- A concrete actuator configuration state. -/
def stFix : MoveState :=
  { controller :=
      { imode := PyVal.str "voltage mode", reference := PyVal.str "internal",
        fet := 0, shield := 0, coupling := 0, time_constant := 1,
        sensitivity := 1, voltage := PyVal.num 1, gain := PyVal.num 0,
        frequency := 1000 },
    settings :=
      { imodeVal := "voltage mode", sensitivityVal := "1.00e+00 V",
        sensitivityLimits := dictKeys (senDict 0 "V") } }

/-- A concrete axis state: soft bounds `[0, 100]` enabled, scaling `2` with
offset `1` enabled. -/
def axisFix : AxisState :=
  { bounds := { is_bounds := true, min_bound := 0, max_bound := 100 },
    scaling := { use_scaling := true, scaling := 2, offset := 1 },
    deviceFrequency := 0, target_frequency := 0, current_frequency := 10 }

/-- A concrete Slave-configured actuator initialization environment. -/
def envMW : MoveIniEnv Unit Unit :=
  { ismultiaxes := true, multi_status := "Slave", adapterKey := "VISA",
    address := "GPIB0::12::INSTR",
    constructAdapter := fun _ _ => Except.ok (),
    constructDSP := fun _ => Except.ok (),
    queryId := fun _ => Except.ok "7265",
    lineInfo := "line: " }

/-- A concrete Slave-configured viewer initialization environment. -/
def envVW : ViewerIniEnv Unit Unit :=
  { controller_status := "Slave", adapterKey := "VISA",
    address := "GPIB0::12::INSTR",
    constructAdapter := fun _ _ => Except.ok (),
    constructDSP := fun _ => Except.ok (),
    queryId := fun _ => Except.ok "7265",
    lineInfo := "line: " }

/-! ## Helper lemmas -/

/-- A target already inside the enabled soft bounds is left unchanged by
`check_bound`. -/
theorem check_bound_of_within (b : BoundsSettings) (x : ℚ)
    (hb : b.is_bounds = true → b.min_bound ≤ x ∧ x ≤ b.max_bound) :
    check_bound b x = x := by
  unfold check_bound
  by_cases h : b.is_bounds = true
  · obtain ⟨h1, h2⟩ := hb h
    rw [if_pos h, if_neg (not_lt.mpr h2), if_neg (not_lt.mpr h1)]
  · rw [if_neg h]

/-- Folding list-append of images equals appending the mapped list. -/
theorem foldl_append_map {α β : Type} (f : α → β) (l : List α) :
    ∀ acc : List β, l.foldl (fun d x => d ++ [f x]) acc = acc ++ l.map f := by
  induction l with
  | nil => intro acc; simp
  | cons x xs ih =>
    intro acc
    simp only [List.foldl_cons, List.map_cons, ih (acc ++ [f x]),
      List.append_assoc, List.singleton_append]

/-! ## The claims -/

/-- C4: for every delta `d` and current position `c`, `move_rel d` commands
the same device frequency and leaves the same target/current frequency
state as `move_abs (clamp (c + d))`, where `clamp` applies the configured
soft bounds (`check_bound`). -/
theorem move_rel_is_move_abs_of_clamped_sum (st : AxisState) (d : ℚ) :
    move_rel st d
      = move_abs st (check_bound st.bounds (st.current_frequency + d)) := by
  unfold move_rel move_abs
  dsimp only
  have h1 : check_bound st.bounds (st.current_frequency + d)
      - st.current_frequency + st.current_frequency
      = check_bound st.bounds (st.current_frequency + d) := by ring
  rw [h1]

/-- C5: for every target `x` within the configured soft bounds, `move_abs x`
followed by `get_actuator_value` returns `x` — written through the scaling
pipeline and read back — within epsilon `0.01`, the device frequency
attribute echoing the last written value. -/
theorem move_abs_then_read_within_epsilon (st : AxisState) (x : ℚ)
    (hb : st.bounds.is_bounds = true →
      st.bounds.min_bound ≤ x ∧ x ≤ st.bounds.max_bound)
    (hs : st.scaling.use_scaling = true → st.scaling.scaling ≠ 0) :
    |get_actuator_value (move_abs st x) - x| ≤ 1 / 100 := by
  unfold get_actuator_value move_abs
  dsimp only
  rw [check_bound_of_within st.bounds x hb]
  unfold set_position_with_scaling get_position_with_scaling
  by_cases hu : st.scaling.use_scaling = true
  · rw [if_pos hu, if_pos hu]
    have hnz := hs hu
    have hx : (x / st.scaling.scaling + st.scaling.offset
        - st.scaling.offset) * st.scaling.scaling = x := by
      rw [add_sub_cancel_right]
      exact div_mul_cancel₀ x hnz
    rw [hx, sub_self, abs_zero]
    norm_num
  · rw [if_neg hu, if_neg hu, sub_self, abs_zero]
    norm_num

/-- C5 witness: a concrete in-bounds move on the fixture axis reads back
exactly. -/
theorem move_abs_then_read_within_epsilon_witness :
    |get_actuator_value (move_abs axisFix 50) - 50| ≤ 1 / 100 :=
  move_abs_then_read_within_epsilon axisFix 50 (by decide) (by decide)

/-- C6: after every successful `move_abs`, the stored target frequency and
current frequency are equal — the pair is updated together and no
successful move leaves them mismatched. -/
theorem move_abs_target_eq_current (st : AxisState) (x : ℚ) :
    (move_abs st x).target_frequency = (move_abs st x).current_frequency :=
  rfl

/-- C8: `grab_data` returns exactly one labeled bundle per channel group,
and within each bundle exactly one single-element array per selected
channel name, holding the value read from the device attribute bearing
that name and labeled by that name. -/
theorem grab_data_one_bundle_per_group (cs : List ChannelChild)
    (ctrl : String → ℚ) :
    (grab_data cs ctrl).length = cs.length ∧
    grab_data cs ctrl = cs.map (fun c =>
      { name := c.childName,
        data := c.selected.map (fun label => [ctrl label]),
        labels := c.selected,
        dim := "Data0D" }) := by
  have h : grab_data cs ctrl = cs.map (fun c =>
      ({ name := c.childName,
         data := c.selected.map (fun label => [ctrl label]),
         labels := c.selected,
         dim := "Data0D" } : DataFromPlugins)) := by
    unfold grab_data
    rw [foldl_append_map]
    simp
  exact ⟨by rw [h, List.length_map], h⟩

/-- C9: for every setting name outside the recognized enumeration,
`commit_settings` is a no-op: the state is returned unchanged and no error
is raised. -/
theorem commit_settings_unrecognized_noop (p : PyParam) (st : MoveState)
    (h : p.name ∉ (["imode", "reference", "fet", "shield", "coupling",
      "time_constant", "sensitivity", "voltage", "gain"] : List String)) :
    commit_settings p st = Except.ok st := by
  simp only [List.mem_cons, List.mem_singleton, not_or] at h
  obtain ⟨h1, h2, h3, h4, h5, h6, h7, h8, h9, -⟩ := h
  unfold commit_settings
  rw [if_neg h1, if_neg h2, if_neg h3, if_neg h4, if_neg h5, if_neg h6,
    if_neg h7, if_neg h8, if_neg h9]

/-- C9 witness: an unrecognized setting name leaves the fixture state
untouched. -/
theorem commit_settings_unrecognized_noop_witness :
    commit_settings ⟨"frobnicate", PyVal.num 3⟩ stFix = Except.ok stFix :=
  commit_settings_unrecognized_noop ⟨"frobnicate", PyVal.num 3⟩ stFix
    (by decide)

attribute [local semireducible] Rat.mul Rat.inv Rat.add Rat.sub in
/-- C1: for every input-mode value of the `IMODES` enumeration, applying
the setting `imode` with that value sets the sensitivity limits to the
recomputed list, which has exactly as many entries as the fixed
`SENSITIVITIES` table, each label built from the sensitivity value
multiplied by that mode's `SEN_MULTIPLIER` entry, with unit suffix `"V"`
for the voltage mode (`IMODES[0]`) and `"A"` for the two current modes. -/
theorem imode_recomputes_full_sensitivity_limits (i : Fin 3) (st : MoveState) :
    commit_settings ⟨"imode", PyVal.str (DSP7265_IMODES.getD i.val "")⟩ st
      = Except.ok
        { controller :=
            { st.controller with
              imode := PyVal.str (DSP7265_IMODES.getD i.val "") },
          settings :=
            { st.settings with
              sensitivityLimits :=
                dictKeys (senDict i.val (if i.val = 0 then "V" else "A")) } }
    ∧ (dictKeys (senDict i.val (if i.val = 0 then "V" else "A"))).length
        = DSP7265_SENSITIVITIES.length
    ∧ dictKeys (senDict i.val (if i.val = 0 then "V" else "A"))
        = DSP7265_SENSITIVITIES.map (fun s =>
            fmt2e (s * DSP7265_SEN_MULTIPLIER.getD i.val 0) ++ " " ++
              (if i.val = 0 then "V" else "A")) := by
  fin_cases i <;> exact ⟨rfl, by decide, by decide⟩

/-- C2: for every initialization attempt — actuator or viewer, primary or
secondary — a raised exception does not propagate: the plugin returns a
status record whose `info` holds the logged message and whose
`initialized` flag is `false`. -/
theorem ini_failure_returns_status {α β : Type}
    (envM : MoveIniEnv α β) (cM : Option β) (eM : String)
    (envV : ViewerIniEnv α β) (cV : Option β) (eV : String)
    (hM : (ini_stage_body envM cM).1 = Except.error eM)
    (hV : (ini_detector_body envV cV).1 = Except.error eV) :
    (ini_stage envM cM).1
      = { info := envM.lineInfo ++ eM, controller := none,
          initialized := false }
    ∧ (ini_detector envV cV).1
      = { info := envV.lineInfo ++ eV, controller := none,
          initialized := false } := by
  constructor
  · unfold ini_stage
    rcases hbody : ini_stage_body envM cM with ⟨r, a, d⟩
    rw [hbody] at hM
    cases r with
    | ok s => exact absurd hM (by simp)
    | error e =>
      have he : e = eM := by simpa using hM
      subst he
      rfl
  · unfold ini_detector
    rcases hbody : ini_detector_body envV cV with ⟨r, a, d⟩
    rw [hbody] at hV
    cases r with
    | ok s => exact absurd hV (by simp)
    | error e =>
      have he : e = eV := by simpa using hV
      subst he
      rfl

/-- C2 witness: the concrete Slave environments with no supplied handle
raise inside the body, and both plugins return a failure status record. -/
theorem ini_failure_returns_status_witness :
    (ini_stage envMW (none : Option Unit)).1
      = { info := envMW.lineInfo ++ moveSlaveErrMsg, controller := none,
          initialized := false }
    ∧ (ini_detector envVW (none : Option Unit)).1
      = { info := envVW.lineInfo ++ viewerSlaveErrMsg, controller := none,
          initialized := false } :=
  ini_failure_returns_status envMW none moveSlaveErrMsg
    envVW none viewerSlaveErrMsg rfl rfl

/-- C3: initializing a secondary (Slave) instance with a null shared
controller handle fails with the configuration error (the raised
no-external-controller message), and no transport-open call is made: zero
adapter constructions and zero driver constructions, for the actuator and
for the viewer alike. -/
theorem slave_without_handle_fails_without_transport_open {α β : Type}
    (envM : MoveIniEnv α β) (envV : ViewerIniEnv α β)
    (hM1 : envM.ismultiaxes = true) (hM2 : envM.multi_status = "Slave")
    (hV : envV.controller_status = "Slave") :
    ini_stage_body envM (none : Option β)
      = (Except.error moveSlaveErrMsg, 0, 0)
    ∧ ini_detector_body envV (none : Option β)
      = (Except.error viewerSlaveErrMsg, 0, 0)
    ∧ (ini_stage envM (none : Option β)).1.initialized = false
    ∧ (ini_detector envV (none : Option β)).1.initialized = false := by
  have hb : ini_stage_body envM (none : Option β)
      = (Except.error moveSlaveErrMsg, 0, 0) := by
    unfold ini_stage_body
    rw [if_pos ⟨hM1, hM2⟩]
  have hv : ini_detector_body envV (none : Option β)
      = (Except.error viewerSlaveErrMsg, 0, 0) := by
    unfold ini_detector_body
    rw [if_pos hV]
  refine ⟨hb, hv, ?_, ?_⟩
  · unfold ini_stage
    rw [hb]
  · unfold ini_detector
    rw [hv]

/-- C3 witness: the concrete Slave environments, handed no controller, fail
with the configuration error and count zero transport opens. -/
theorem slave_without_handle_fails_without_transport_open_witness :
    ini_stage_body envMW (none : Option Unit)
      = (Except.error moveSlaveErrMsg, 0, 0)
    ∧ ini_detector_body envVW (none : Option Unit)
      = (Except.error viewerSlaveErrMsg, 0, 0)
    ∧ (ini_stage envMW (none : Option Unit)).1.initialized = false
    ∧ (ini_detector envVW (none : Option Unit)).1.initialized = false :=
  slave_without_handle_fails_without_transport_open envMW envVW rfl rfl rfl

/-- C7 (failing input): `addNew`'s index parse drops the first digit of a
two-digit index (`par.name()[len('channel') + 1:]` slices from position 8,
one past the prefix).  Eleven successive adds from an empty group produce
`channel00 … channel10`; on that state the group `channel10` — true index
10 — is parsed as 0, the computed new index is 10, not the claimed
`max + 1 = 11`, and the added child reuses the existing name
`channel10`. -/
theorem addNew_reuses_index_ten_on_eleven_groups :
    addNewIter 11 (some []) = some elevenChannels
    ∧ channelName 10 ∈ elevenChannels
    ∧ addNewIndex elevenChannels = some 10
    ∧ addNew elevenChannels = some (elevenChannels ++ [channelName 10]) := by
  decide

/-- C10: applying an input-mode change modifies only the device's `imode`
attribute and the sensitivity parameter's limits list; the selected
sensitivity label is left in place — even when it no longer belongs to the
recomputed limits — and every other modelled configuration field, device
attribute and settings value included, is unchanged. -/
theorem imode_change_frame (i : Fin 3) (st : MoveState) :
    commit_settings ⟨"imode", PyVal.str (DSP7265_IMODES.getD i.val "")⟩ st
      = Except.ok
        { controller :=
            { st.controller with
              imode := PyVal.str (DSP7265_IMODES.getD i.val "") },
          settings :=
            { st.settings with
              sensitivityLimits :=
                dictKeys (senDict i.val (if i.val = 0 then "V" else "A")) } }
    ∧ ({ st.settings with
          sensitivityLimits :=
            dictKeys (senDict i.val (if i.val = 0 then "V" else "A")) }
          : MoveSettings).sensitivityVal
        = st.settings.sensitivityVal
    ∧ ({ st.controller with
          imode := PyVal.str (DSP7265_IMODES.getD i.val "") }
          : Controller).frequency
        = st.controller.frequency := by
  fin_cases i <;> exact ⟨rfl, rfl, rfl⟩

end DSP7265Plugin
